import Mathlib

/-!
Verification of the funman numeric core: a shallow embedding of
`src/funman/representation/interval.py` and `src/funman/server/query.py`,
with theorems settling the frozen specification claims.

Finite numeric values are embedded as rationals (the source compares bounds
via exact `Decimal` arithmetic); the infinity sentinels from
`funman.constants` become constructors of a `Bound` type.
-/

set_option maxHeartbeats 1000000

namespace Funman

/-- Modelled from the spec: `funman.constants` (not under `src/`) provides the
string sentinels `NEG_INFINITY`/`POS_INFINITY` and the constant `BIG_NUMBER`.
A bound is a finite value or one of the two sentinels; sentinels are absorbing
extremes (§3 of the spec). -/
inductive Bound where
  | neg_inf : Bound
  | pos_inf : Bound
  | fin (q : ℚ) : Bound
  deriving DecidableEq, Repr

/-- Modelled from the spec: `funman.utils.math_utils.lt` (not under `src/`),
§4.1: NEG_INFINITY is strictly less than every finite value and POS_INFINITY,
never strictly less than itself; POS_INFINITY symmetrically; finite values
compare exactly. -/
def lt : Bound → Bound → Bool
  | Bound.neg_inf, Bound.neg_inf => false
  | Bound.neg_inf, _ => true
  | _, Bound.neg_inf => false
  | Bound.pos_inf, _ => false
  | _, Bound.pos_inf => true
  | Bound.fin a, Bound.fin b => decide (a < b)

/-- Modelled from the spec: `math_utils.lte`, reflexive on the sentinels. -/
def lte (a b : Bound) : Bool := lt a b || a == b

/-- Modelled from the spec: `math_utils.gt`. -/
def gt (a b : Bound) : Bool := lt b a

/-- Modelled from the spec: `math_utils.gte`. -/
def gte (a b : Bound) : Bool := lte b a

/-- Modelled from the spec: `math_utils.div`, §4.1: dividing a sentinel by a
positive finite number returns the same sentinel; a non-positive divisor
yields zero rather than an error. -/
def Bound.div : Bound → ℚ → Bound
  | b, n =>
    if 0 < n then
      match b with
      | Bound.neg_inf => Bound.neg_inf
      | Bound.pos_inf => Bound.pos_inf
      | Bound.fin q => Bound.fin (q / n)
    else Bound.fin 0

/-- Raw Python `<=` between two bound values (`interval.py` uses it directly in
`Interval.contains`): two floats compare numerically, the sentinel strings
compare lexicographically ("-inf" < "inf"), and a string against a float
raises `TypeError`, embedded as `none`. -/
def pyLe : Bound → Bound → Option Bool
  | Bound.fin a, Bound.fin b => some (decide (a ≤ b))
  | Bound.neg_inf, Bound.neg_inf => some true
  | Bound.pos_inf, Bound.pos_inf => some true
  | Bound.neg_inf, Bound.pos_inf => some true
  | Bound.pos_inf, Bound.neg_inf => some false
  | _, _ => none

/-- `Interval` from `interval.py`: `{lb, ub, closed_upper_bound}` representing
`[lb, ub)` unless `closed_upper_bound` (the lazily cached width is excluded:
it never affects the operations the claims are about). -/
structure Interval where
  lb : Bound
  ub : Bound
  closed_upper_bound : Bool
  deriving DecidableEq, Repr

/-- Pydantic construction of an `Interval`, including the `check_interval`
model validator (`interval.py:325`).  When the validator fires (equal bounds,
open upper bound) it first builds the warning message `f"{self} has equal
..."`, and `__str__` (`interval.py:102`) formats each bound with `:.5f`:
finite (float) bounds format fine and the flag is corrected to closed, but a
string sentinel bound raises `ValueError` (format code `f` on a `str`), so
construction fails — embedded as `none`. -/
def Interval.make (lb ub : Bound) (cub : Bool) : Option Interval :=
  if lb = ub ∧ cub = false then
    match lb with
    | Bound.fin _ => some ⟨lb, ub, true⟩
    | _ => none
  else some ⟨lb, ub, cub⟩

/-- `Interval.__eq__` (`interval.py:91`): structural equality on `(lb, ub)`
only; the closedness flag is not compared. -/
def intervalEq (a b : Interval) : Bool := a.lb == b.lb && a.ub == b.ub

/-- `Interval.normalize` (`interval.py:77`), embedded exactly as written:
both result bounds are computed from `self.lb` (the source divides `self.lb`
by the factor twice).  Because the two bounds are always equal, the
constructed interval always triggers the point-interval validator: a finite
`lb` is coerced closed, a sentinel `lb` makes construction raise
(`none`). -/
def Interval.normalize (i : Interval) (f : ℚ) : Option Interval :=
  Interval.make (Bound.div i.lb f) (Bound.div i.lb f) false

/-- `Interval.midpoint` (`interval.py:231`) with `points=None`.  The module
imports only `NEG_INFINITY, POS_INFINITY` from `funman.constants`
(`interval.py:9`), so the name `BIG_NUMBER` at `interval.py:255/257` is
unbound: both one-sentinel branches raise `NameError` (embedded as `none`).
The both-infinite branch returns `0` and the both-finite fall-through returns
the arithmetic mean; a sentinel reaching the subtraction in the fall-through
would raise `TypeError` (`none`). -/
def Interval.midpoint (i : Interval) : Option ℚ :=
  if i.lb = Bound.neg_inf ∧ i.ub = Bound.pos_inf then some 0
  else if i.lb = Bound.neg_inf then none
  else if i.ub = Bound.pos_inf then none
  else
    match i.lb, i.ub with
    | Bound.fin l, Bound.fin u => some ((u - l) / 2 + l)
    | _, _ => none

/-- `Interval.contains` (`interval.py:131`).  The two conditional expressions
use raw Python comparison on the bound values, so a mixed string/float
comparison raises `TypeError` (`none`); the Python `and` of the two parts is
computed after both have been evaluated. -/
def Interval.contains (s o : Interval) : Option Bool :=
  let lhs : Option Bool :=
    if s.lb = Bound.neg_inf ∨ o.lb = Bound.neg_inf then
      some (decide (s.lb = Bound.neg_inf ∨ o.lb ≠ Bound.neg_inf))
    else pyLe s.lb o.lb
  let rhs : Option Bool :=
    if s.ub = Bound.pos_inf ∨ o.ub = Bound.pos_inf then
      some (decide (o.ub ≠ Bound.pos_inf ∨ s.ub = Bound.pos_inf))
    else pyLe o.ub s.ub
  match lhs, rhs with
  | some l, some r => some (l && r)
  | _, _ => none

/-- Result of `Interval.intersection` (`interval.py:171`): the receiver itself
when the intervals are `==`-equal, a two-element list of floats on a nonempty
intersection (`float` of a sentinel string is the infinite float, kept as the
same `Bound`), or the empty list. -/
inductive IntersectionResult where
  | interval (i : Interval) : IntersectionResult
  | pair (lo hi : Bound) : IntersectionResult
  | empty : IntersectionResult
  deriving DecidableEq, Repr

/-- `Interval.intersection` (`interval.py:171`). -/
def Interval.intersection (s b : Interval) : IntersectionResult :=
  if intervalEq s b then IntersectionResult.interval s
  else
    let p : Interval × Interval :=
      if s.lb == b.lb then
        if lt s.ub b.ub then (s, b) else (b, s)
      else if lt s.lb b.lb then (s, b) else (b, s)
    if gt p.1.ub p.2.lb then IntersectionResult.pair p.2.lb p.1.ub
    else IntersectionResult.empty

/-- Does an intersection result denote the same range as interval `b`, "up to
float round-trip" (an `Interval` result compares by `(lb, ub)` as Python `==`
does; a two-float list compares its elements against `b`'s bounds)? -/
def matchesB : IntersectionResult → Interval → Bool
  | IntersectionResult.interval i, b => intervalEq i b
  | IntersectionResult.pair lo hi, b => lo == b.lb && hi == b.ub
  | IntersectionResult.empty, _ => false

/-- `Interval.subtract` (`interval.py:208`): directional difference by lower
bounds; returns `None` (`Except.ok none`) when the lower bounds are equal
under the sentinel comparator.  The constructed intervals go through pydantic
validation, which can itself raise (`Except.error`) when the result is an
open point interval with sentinel bounds — possible in the second branch when
`b.ub == s.ub` is a sentinel. -/
def Interval.subtract (s b : Interval) : Except String (Option Interval) :=
  if lt s.lb b.lb then
    match Interval.make s.lb b.lb false with
    | some i => Except.ok (some i)
    | none => Except.error "ValueError"
  else if lt b.lb s.lb then
    match Interval.make b.ub s.ub false with
    | some i => Except.ok (some i)
    | none => Except.error "ValueError"
  else Except.ok none

/-! ## `src/funman/server/query.py`: result aggregation -/

/-- `FunmanProgress` (`query.py:45`). -/
structure FunmanProgress where
  progress : ℚ
  coverage_of_search_space : ℚ
  coverage_of_representable_space : ℚ
  deriving DecidableEq, Repr

/-- Modelled from the spec: `ParameterSpace`
(`funman.representation.representation`, not under `src/`) as consumed by the
aggregator — only its `labeled_volume()` value matters here (§4.3). -/
structure ParameterSpace where
  labeled_volume : ℚ
  deriving DecidableEq, Repr

/-- Modelled from the spec: an `AnalysisScenario`
(`funman.scenario.scenario`, not under `src/`) as consumed by
`update_parameter_space` — only its two volume queries matter here. -/
structure AnalysisScenario where
  search_space_volume : ℚ
  representable_space_volume : ℚ
  deriving DecidableEq, Repr

/-- The mutable state of a `FunmanResults` aggregator (`query.py:133`):
its pydantic fields plus the private `_finalized` flag.  The fixed
`id`/`model`/`request` fields play no role in the claims. -/
structure FunmanResults where
  finalized : Bool
  progress : FunmanProgress
  done : Bool
  error : Bool
  parameter_space : Option ParameterSpace
  deriving DecidableEq, Repr

/-- A freshly constructed `FunmanResults`, with every defaulted field at its
class default (`query.py:133`): not finalized, zero progress, not done, no
error, no parameter space. -/
def freshResults : FunmanResults :=
  { finalized := false
    progress := { progress := 0, coverage_of_search_space := 0,
                  coverage_of_representable_space := 0 }
    done := false
    error := false
    parameter_space := none }

/-- `FunmanResults.is_final` (`query.py:152`). -/
def FunmanResults.is_final (r : FunmanResults) : Bool := r.finalized

/-- Exceptions raised on the finalization paths of `query.py`. -/
inductive FinalizeErr where
  | alreadyFinalized : FinalizeErr
  | noParameterSpace : FinalizeErr
  deriving DecidableEq, Repr

/-- `FunmanResults.update_parameter_space` (`query.py:155`): store the
parameter space and recompute the coverage ratios, guarding both divisions
against a zero denominator. -/
def FunmanResults.update_parameter_space (r : FunmanResults)
    (scenario : AnalysisScenario) (results : ParameterSpace) : FunmanResults :=
  let labeled_volume := results.labeled_volume
  let search_volume := scenario.search_space_volume
  let repr_volume := scenario.representable_space_volume
  let coverage_of_search_space :=
    if search_volume = 0 then 0 else labeled_volume / search_volume
  let coverage_of_repr_space :=
    if repr_volume = 0 then 0 else search_volume / repr_volume
  { r with
    parameter_space := some results
    progress :=
      { progress := coverage_of_search_space
        coverage_of_search_space := coverage_of_search_space
        coverage_of_representable_space := coverage_of_repr_space } }

/-- `FunmanResults.finalize_result` (`query.py:184`).  The scenario result is
represented by the `Option ParameterSpace` the two `isinstance` branches
extract from it.  Python mutates the object in place before it can raise, so
the embedding returns the post-call state together with the raised exception,
if any: the `_finalized` flag is set before either error check that can still
fire. -/
def FunmanResults.finalize_result (r : FunmanResults)
    (scenario : AnalysisScenario) (ps : Option ParameterSpace) :
    FunmanResults × Option FinalizeErr :=
  if r.finalized then (r, some FinalizeErr.alreadyFinalized)
  else
    let r1 : FunmanResults := { r with finalized := true }
    match ps with
    | none => (r1, some FinalizeErr.noParameterSpace)
    | some p =>
      let r2 := r1.update_parameter_space scenario p
      ({ r2 with done := true, progress := { r2.progress with progress := 1 } },
       none)

/-- `FunmanResults.finalize_result_as_error` (`query.py:207`). -/
def FunmanResults.finalize_result_as_error (r : FunmanResults) :
    FunmanResults × Option FinalizeErr :=
  if r.finalized then (r, some FinalizeErr.alreadyFinalized)
  else
    ({ r with finalized := true, error := true, done := true,
              progress := { r.progress with progress := 1 } },
     none)

/-! ## `query.py`: symbol extraction -/

/-- A value stored in a `Point`'s `values` mapping: either a number that
`float()` converts exactly, or a value (e.g. a huge solver rational) whose
conversion raises `OverflowError`. -/
inductive PyVal where
  | num (q : ℚ) : PyVal
  | overflowing : PyVal
  deriving DecidableEq, Repr

/-- Python `float(value)`: `none` models a raised `OverflowError`. -/
def pyFloat : PyVal → Option ℚ
  | PyVal.num q => some q
  | PyVal.overflowing => none

/-- Is `pre` a prefix of `l`? -/
def isPrefixList : List Char → List Char → Bool
  | [], _ => true
  | _ :: _, [] => false
  | a :: as, b :: bs => a == b && isPrefixList as bs

/-- Python `needle in hay` on strings: substring containment. -/
def isSubstring (needle : List Char) : List Char → Bool
  | [] => isPrefixList needle []
  | c :: t => isPrefixList needle (c :: t) || isSubstring needle t

/-- Python `s.rsplit("_", 1)` as used by `_split_symbol` (`query.py:360`):
split at the last underscore; `none` when the string has no underscore (in
which case the source's two-element unpacking would raise). -/
def rsplit1 : List Char → Option (List Char × List Char)
  | [] => none
  | c :: rest =>
    match rsplit1 rest with
    | some (pre, post) => some (c :: pre, post)
    | none => if c == '_' then some ([], rest) else none

/-- Python `str.isdigit` restricted to ASCII digits: nonempty and all digits
(the empty string is not a digit string). -/
def isDigits (cs : List Char) : Bool := !cs.isEmpty && cs.all Char.isDigit

/-- Python `int` on a digit string. -/
def digitsToNat (cs : List Char) : Nat :=
  cs.foldl (fun a c => a * 10 + (c.toNat - 48)) 0

/-- Python dict assignment `d[k] = v` on an insertion-ordered association
list: overwrite in place when the key is present, else append. -/
def assocSet {α : Type} (l : List (String × α)) (k : String) (v : α) :
    List (String × α) :=
  match l with
  | [] => [(k, v)]
  | (k', v') :: t => if k' = k then (k, v) :: t else (k', v') :: assocSet t k v

/-- Python dict lookup `d[k]` / `k in d` on an association list. -/
def alookup {α : Type} (l : List (String × α)) (k : String) : Option α :=
  match l with
  | [] => none
  | (k', v') :: t => if k' = k then some v' else alookup t k

/-- `FunmanResults._symbols` (`query.py:346`): for each symbol of the point
whose name has some requested variable followed by `_` as a substring, split
off the trailing `_<timepoint>` component; a nonempty timepoint registers the
symbol under its variable name.  Iteration follows the insertion order of the
point's `values` dict. -/
def symbolsOf (pointVals : List (String × PyVal)) (varNames : List String) :
    List (String × List (String × String)) :=
  pointVals.foldl
    (fun symbols kv =>
      let var := kv.1
      if varNames.any (fun v => isSubstring (v.data ++ ['_']) var.data) then
        match rsplit1 var.data with
        | some (pre, post) =>
          if post.isEmpty then symbols
          else
            let var_name := String.mk pre
            let timepoint := String.mk post
            match alookup symbols var_name with
            | some inner =>
              assocSet symbols var_name (assocSet inner timepoint var)
            | none => assocSet symbols var_name [(timepoint, var)]
        | none => symbols
      else symbols)
    []

/-- The body of the inner loop of `symbol_values` (`query.py:338-343`): a
successful `float` conversion stores the value under its timepoint key.  An
`OverflowError` is caught, but the handler then evaluates `l.warning(e)` and
`query.py` never defines or imports `l`, so the handler raises `NameError`
and the whole call aborts — embedded as `none`. -/
def setStep {α : Type} (conv : String → Option α)
    (vals : List (String × α)) (tv : String × String) :
    Option (List (String × α)) :=
  match conv tv.2 with
  | some q => some (assocSet vals tv.1 q)
  | none => none

/-- `FunmanResults.symbol_values` (`query.py:315`): for each symbol found by
`_symbols`, convert its value with `float`.  The first conversion that
overflows makes the `except` handler raise `NameError` (unbound `l`), so the
whole extraction aborts (`none`); with no overflow the nested mapping is
returned. -/
def symbol_values (pointVals : List (String × PyVal))
    (varNames : List String) :
    Option (List (String × List (String × ℚ))) :=
  (symbolsOf pointVals varNames).mapM
    (fun p =>
      (p.2.foldlM (setStep (fun s => (alookup pointVals s).bind pyFloat))
        []).map
        (fun vals => (p.1, vals)))

/-- One column of the `symbol_timeseries` result: the `"index"` key holds a
list of integers, each variable key a dense list of optional values. -/
inductive TimeseriesCol where
  | idx (l : List Nat) : TimeseriesCol
  | vals (l : List (Option ℚ)) : TimeseriesCol
  deriving DecidableEq, Repr

/-- `vals[int(t)] = v` on a dense list (always in range in the source, since
the list was sized by the maximal timepoint). -/
def listSet {α : Type} : List α → Nat → α → List α
  | [], _, _ => []
  | _ :: t, 0, v => v :: t
  | h :: t, n + 1, v => h :: listSet t n v

/-- `FunmanResults.symbol_timeseries` (`query.py:287`): a `NameError` raised
inside `symbol_values` propagates (`none`); otherwise compute the maximal
digit timepoint over all extracted series (`max` of an empty outer list
raises, embedded as `none`), emit a dense `"index"` column, then one dense
column per variable with non-digit timepoints ignored. -/
def symbol_timeseries (pointVals : List (String × PyVal))
    (varNames : List String) : Option (List (String × TimeseriesCol)) :=
  match symbol_values pointVals varNames with
  | none => none
  | some series =>
  if series.isEmpty then none
  else
    let max_t :=
      (series.map
        (fun p =>
          (p.2.foldl
            (fun m tv => if isDigits tv.1.data then max m (digitsToNat tv.1.data) else m)
            0))).foldl max 0
    some
      (("index", TimeseriesCol.idx (List.range (max_t + 1))) ::
       series.map
         (fun p =>
           (p.1,
            TimeseriesCol.vals
              (p.2.foldl
                (fun vals tv =>
                  if isDigits tv.1.data then listSet vals (digitsToNat tv.1.data) (some tv.2)
                  else vals)
                (List.replicate (max_t + 1) none)))))

/-! ## `query.py`: scenario dispatch -/

/-- Modelled from the spec: `LABEL_ANY`, the label marking a parameter as
existentially fixed rather than synthesized (`funman` package root, not under
`src/`); its concrete string is immaterial, dispatch only compares labels
against it. -/
def LABEL_ANY : String := "any"

/-- Modelled from the spec: the concrete model classes (`funman.model.*`, not
under `src/`) that a work unit can carry, reduced to their kind tags; §4.5
says the dispatcher must reject parameter synthesis over an ensemble of
models. -/
inductive ModelKind where
  | regnet | petrinet | decapode | bilayer
  | generatedRegnet | generatedPetrinet | ensemble
  deriving DecidableEq, Repr

/-- Modelled from the spec: the query variants accepted by
`FunmanWorkRequest` (payloads are irrelevant to dispatch). -/
inductive Query where
  | queryAnd | queryLE | queryFunction | queryTrue
  deriving DecidableEq, Repr

/-- Modelled from the spec: `LabeledParameter`
(`funman.representation.parameter`, not under `src/`): `{name, lb, ub,
label}`. -/
structure LabeledParameter where
  name : String
  lb : Bound
  ub : Bound
  label : String
  deriving DecidableEq, Repr

/-- A parameter constructed by `to_scenario` (`query.py:85-106`): either a
`ModelParameter` built from `request.parameters` or a `StructureParameter`
built from `request.structure_parameters`. -/
inductive Parameter where
  | modelParam (name : String) (lb ub : Bound) (label : String) : Parameter
  | structureParam (name : String) (lb ub : Bound) (label : String) : Parameter
  deriving DecidableEq, Repr

/-- `FunmanWorkRequest` (`query.py:37`); constraints are opaque to dispatch
and represented by a count-irrelevant placeholder list. -/
structure FunmanWorkRequest where
  query : Option Query
  constraints : Option (List Unit)
  parameters : Option (List LabeledParameter)
  structure_parameters : Option (List LabeledParameter)
  deriving DecidableEq, Repr

/-- `FunmanWorkUnit` (`query.py:51`): the dispatchable unit (its `id` and
progress play no role in dispatch). -/
structure FunmanWorkUnit where
  model : ModelKind
  request : FunmanWorkRequest
  deriving DecidableEq, Repr

/-- The scenario constructed by `FunmanWorkUnit.to_scenario`. -/
inductive Scenario where
  | consistency (model : ModelKind) (query : Query)
      (parameters : List Parameter) (constraints : Option (List Unit)) : Scenario
  | parameterSynthesis (model : ModelKind) (query : Query)
      (parameters : List Parameter) (constraints : Option (List Unit)) : Scenario
  deriving DecidableEq, Repr

/-- `FunmanWorkUnit.to_scenario` (`query.py:71`): default the query to
`QueryTrue`, build model parameters then structure parameters, dispatch to a
consistency scenario when there are no request parameters or all are labeled
`LABEL_ANY`, raise on an ensemble model otherwise, and fall through to
parameter synthesis. -/
def FunmanWorkUnit.to_scenario (w : FunmanWorkUnit) : Except String Scenario :=
  let query := w.request.query.getD Query.queryTrue
  let params :=
    (match w.request.parameters with
     | none => []
     | some ps => ps.map (fun d => Parameter.modelParam d.name d.lb d.ub d.label)) ++
    (match w.request.structure_parameters with
     | none => []
     | some ps => ps.map (fun d => Parameter.structureParam d.name d.lb d.ub d.label))
  if (match w.request.parameters with
      | none => true
      | some ps => ps.all (fun p => p.label == LABEL_ANY)) then
    Except.ok (Scenario.consistency w.model query params w.request.constraints)
  else if w.model = ModelKind.ensemble then
    Except.error "TODO handle EnsembleModel for ParameterSynthesisScenario"
  else
    Except.ok (Scenario.parameterSynthesis w.model query params w.request.constraints)

/-- Is a dispatch result a consistency scenario? -/
def isConsistency : Except String Scenario → Bool
  | Except.ok (Scenario.consistency _ _ _ _) => true
  | _ => false

/-- Is a dispatch result a parameter-synthesis scenario? -/
def isParameterSynthesis : Except String Scenario → Bool
  | Except.ok (Scenario.parameterSynthesis _ _ _ _) => true
  | _ => false

/-! ## Theorems -/

/-- Auxiliary: the strict comparator never holds between equal bounds. -/
theorem lt_ne {x y : Bound} (h : lt x y = true) : x ≠ y := by
  cases x <;> cases y <;> simp_all [lt]
  exact ne_of_lt h

/-- Auxiliary: the strict comparator is asymmetric. -/
theorem lt_asymmB : ∀ (x y : Bound), lt x y = true → lt y x = false
  | Bound.neg_inf, Bound.neg_inf, h => by simp [lt] at h
  | Bound.neg_inf, Bound.pos_inf, _ => rfl
  | Bound.neg_inf, Bound.fin _, _ => rfl
  | Bound.pos_inf, Bound.neg_inf, h => by simp [lt] at h
  | Bound.pos_inf, Bound.pos_inf, h => by simp [lt] at h
  | Bound.pos_inf, Bound.fin _, h => by simp [lt] at h
  | Bound.fin _, Bound.neg_inf, h => by simp [lt] at h
  | Bound.fin _, Bound.pos_inf, _ => rfl
  | Bound.fin a, Bound.fin b, h => by
      simp only [lt, decide_eq_true_eq] at h
      simp only [lt, decide_eq_false_iff_not]
      exact not_lt.mpr h.le

/-- C1 (code bug): `midpoint()` returns `0` on `[NEG_INFINITY, POS_INFINITY]`
and the arithmetic mean on finite bounds, but on a one-sentinel interval such
as `[3, POS_INFINITY]` it raises `NameError` (`BIG_NUMBER` is unbound:
`interval.py:9` imports only the sentinels) instead of returning the claimed
`3 + BIG_NUMBER`. -/
theorem midpoint_name_error :
    ({ lb := Bound.fin 3, ub := Bound.pos_inf,
       closed_upper_bound := false } : Interval).midpoint = none ∧
    ({ lb := Bound.neg_inf, ub := Bound.fin 7,
       closed_upper_bound := false } : Interval).midpoint = none ∧
    ({ lb := Bound.neg_inf, ub := Bound.pos_inf,
       closed_upper_bound := false } : Interval).midpoint = some 0 ∧
    ∀ (lo hi : ℚ) (c : Bool),
      ({ lb := Bound.fin lo, ub := Bound.fin hi,
         closed_upper_bound := c } : Interval).midpoint =
        some ((hi - lo) / 2 + lo) := by
  refine ⟨rfl, rfl, rfl, ?_⟩
  intro lo hi c
  simp [Interval.midpoint]

/-- C2 (code bug): `normalize` divides `self.lb` by the factor for *both*
result bounds, so on `[2, 6]` with factor `2` it returns the degenerate
interval `[1, 1]` (coerced closed by validation) instead of the rescaled
`[1, 3]` the claim and the spec describe. -/
theorem normalize_uses_lb_twice :
    Interval.normalize
        { lb := Bound.fin 2, ub := Bound.fin 6, closed_upper_bound := false }
        2 =
      some { lb := Bound.fin 1, ub := Bound.fin 1,
             closed_upper_bound := true } ∧
    (Interval.normalize
        { lb := Bound.fin 2, ub := Bound.fin 6, closed_upper_bound := false }
        2).map Interval.ub ≠ some (Bound.fin 3) := by
  have hd : Bound.div (Bound.fin 2) 2 = Bound.fin 1 := by
    norm_num [Bound.div]
  have h1 : Interval.normalize
      { lb := Bound.fin 2, ub := Bound.fin 6, closed_upper_bound := false }
      2 =
      some { lb := Bound.fin 1, ub := Bound.fin 1,
             closed_upper_bound := true } := by
    simp [Interval.normalize, hd, Interval.make]
  refine ⟨h1, ?_⟩
  rw [h1]
  simp

/-- C4 (counterexample): on `[5, 10].subtract([0, 2])` the source returns
`Interval(lb=2, ub=10)` with the *default open* upper bound, not the closed
interval the claim states. -/
theorem subtract_counterexample :
    Interval.subtract
        { lb := Bound.fin 5, ub := Bound.fin 10, closed_upper_bound := false }
        { lb := Bound.fin 0, ub := Bound.fin 2, closed_upper_bound := false } =
      Except.ok (some { lb := Bound.fin 2, ub := Bound.fin 10,
                        closed_upper_bound := false }) ∧
    Interval.subtract
        { lb := Bound.fin 5, ub := Bound.fin 10, closed_upper_bound := false }
        { lb := Bound.fin 0, ub := Bound.fin 2, closed_upper_bound := false } ≠
      Except.ok (some { lb := Bound.fin 2, ub := Bound.fin 10,
                        closed_upper_bound := true }) := by
  have h1 : Interval.subtract
      { lb := Bound.fin 5, ub := Bound.fin 10, closed_upper_bound := false }
      { lb := Bound.fin 0, ub := Bound.fin 2, closed_upper_bound := false } =
      Except.ok (some { lb := Bound.fin 2, ub := Bound.fin 10,
                        closed_upper_bound := false }) := rfl
  refine ⟨h1, ?_⟩
  rw [h1]
  intro hcontra
  simp at hcontra

/-- C4 (amended): `subtract` yields the half-open `[self.lb, b.lb)` when
`self.lb < b.lb`; when `self.lb > b.lb` it yields the half-open
`[b.ub, self.ub)`, except in the degenerate case `b.ub == self.ub`, where the
point-interval validator coerces the result closed for a finite shared bound
and construction raises `ValueError` for a sentinel shared bound (its
diagnostic formats the sentinel string with `:.5f`); and it yields no
interval when neither lower bound is strictly less than the other. -/
theorem subtract_cases (s b : Interval) :
    (lt s.lb b.lb = true →
      s.subtract b =
        Except.ok (some { lb := s.lb, ub := b.lb,
                          closed_upper_bound := false })) ∧
    (lt b.lb s.lb = true → b.ub ≠ s.ub →
      s.subtract b =
        Except.ok (some { lb := b.ub, ub := s.ub,
                          closed_upper_bound := false })) ∧
    (lt b.lb s.lb = true → b.ub = s.ub → (∃ q : ℚ, s.ub = Bound.fin q) →
      s.subtract b =
        Except.ok (some { lb := b.ub, ub := s.ub,
                          closed_upper_bound := true })) ∧
    (lt b.lb s.lb = true → b.ub = s.ub → (∀ q : ℚ, s.ub ≠ Bound.fin q) →
      s.subtract b = Except.error "ValueError") ∧
    (lt s.lb b.lb = false → lt b.lb s.lb = false →
      s.subtract b = Except.ok none) := by
  refine ⟨fun h => ?_, fun h hne => ?_, fun h he hfin => ?_,
          fun h he hsent => ?_, fun h1 h2 => ?_⟩
  · have hne := lt_ne h
    simp [Interval.subtract, h, Interval.make, hne]
  · have hns : lt s.lb b.lb = false := lt_asymmB _ _ h
    simp [Interval.subtract, hns, h, Interval.make, hne]
  · have hns : lt s.lb b.lb = false := lt_asymmB _ _ h
    obtain ⟨q, hq⟩ := hfin
    simp [Interval.subtract, hns, h, Interval.make, he, hq]
  · have hns : lt s.lb b.lb = false := lt_asymmB _ _ h
    cases hub : s.ub with
    | fin q => exact absurd hub (hsent q)
    | neg_inf => simp [Interval.subtract, hns, h, Interval.make, he, hub]
    | pos_inf => simp [Interval.subtract, hns, h, Interval.make, he, hub]
  · simp [Interval.subtract, h1, h2]

/-- C4 (witness): the five branches of `subtract_cases` evaluated at concrete
intervals, including the sentinel degenerate case where construction
raises. -/
theorem subtract_cases_witness :
    Interval.subtract
        { lb := Bound.fin 0, ub := Bound.fin 1, closed_upper_bound := false }
        { lb := Bound.fin 5, ub := Bound.fin 7, closed_upper_bound := false } =
      Except.ok (some { lb := Bound.fin 0, ub := Bound.fin 5,
                        closed_upper_bound := false }) ∧
    Interval.subtract
        { lb := Bound.fin 5, ub := Bound.fin 10, closed_upper_bound := false }
        { lb := Bound.fin 0, ub := Bound.fin 2, closed_upper_bound := false } =
      Except.ok (some { lb := Bound.fin 2, ub := Bound.fin 10,
                        closed_upper_bound := false }) ∧
    Interval.subtract
        { lb := Bound.fin 5, ub := Bound.fin 10, closed_upper_bound := false }
        { lb := Bound.fin 0, ub := Bound.fin 10, closed_upper_bound := false } =
      Except.ok (some { lb := Bound.fin 10, ub := Bound.fin 10,
                        closed_upper_bound := true }) ∧
    Interval.subtract
        { lb := Bound.fin 5, ub := Bound.pos_inf, closed_upper_bound := false }
        { lb := Bound.fin 0, ub := Bound.pos_inf, closed_upper_bound := false } =
      Except.error "ValueError" ∧
    Interval.subtract
        { lb := Bound.fin 0, ub := Bound.fin 3, closed_upper_bound := false }
        { lb := Bound.fin 0, ub := Bound.fin 9, closed_upper_bound := false } =
      Except.ok none := by
  refine ⟨(subtract_cases _ _).1 (by decide),
          (subtract_cases _ _).2.1 (by decide) (by decide),
          (subtract_cases _ _).2.2.1 (by decide) rfl ⟨10, rfl⟩,
          (subtract_cases _ _).2.2.2.1 (by decide) rfl
            (fun q h => Bound.noConfusion h),
          (subtract_cases _ _).2.2.2.2 (by decide) (by decide)⟩

/-- C8 (counterexample): constructing an open point-interval with equal
*sentinel* bounds is rejected, not auto-corrected: the validator's diagnostic
formats the string bound with `:.5f` and raises `ValueError`; the finite case
does construct. -/
theorem check_interval_sentinel_rejected :
    Interval.make Bound.pos_inf Bound.pos_inf false = none ∧
    Interval.make Bound.neg_inf Bound.neg_inf false = none ∧
    Interval.make (Bound.fin 5) (Bound.fin 5) false ≠ none := by
  refine ⟨rfl, rfl, ?_⟩
  intro hcontra
  simp [Interval.make] at hcontra

/-- C8 (amended): every successfully constructed `Interval` satisfies the
invariant that equal bounds imply a closed upper bound, and the open
point-interval `Interval(lb=5, ub=5, closed_upper_bound=False)` (finite
bounds) is auto-corrected: it constructs with `closed_upper_bound = true`. -/
theorem check_interval_invariant (lb ub : Bound) (c : Bool) (i : Interval)
    (h : Interval.make lb ub c = some i) (he : i.lb = i.ub) :
    i.closed_upper_bound = true ∧
    Interval.make (Bound.fin 5) (Bound.fin 5) false =
      some { lb := Bound.fin 5, ub := Bound.fin 5,
             closed_upper_bound := true } := by
  refine ⟨?_, rfl⟩
  unfold Interval.make at h
  by_cases hcond : lb = ub ∧ c = false
  · rw [if_pos hcond] at h
    cases hl : lb with
    | neg_inf => rw [hl] at h; simp at h
    | pos_inf => rw [hl] at h; simp at h
    | fin q =>
      rw [hl] at h
      simp only [Option.some.injEq] at h
      subst h
      rfl
  · rw [if_neg hcond] at h
    simp only [Option.some.injEq] at h
    subst h
    push_neg at hcond
    cases c with
    | true => rfl
    | false => exact absurd rfl (hcond he)

/-- C8 (witness): `check_interval_invariant` at the concrete construction
`Interval(lb=5, ub=5, closed_upper_bound=False)`. -/
theorem check_interval_invariant_witness :
    ({ lb := Bound.fin 5, ub := Bound.fin 5,
       closed_upper_bound := true } : Interval).closed_upper_bound = true ∧
    Interval.make (Bound.fin 5) (Bound.fin 5) false =
      some { lb := Bound.fin 5, ub := Bound.fin 5,
             closed_upper_bound := true } :=
  check_interval_invariant (Bound.fin 5) (Bound.fin 5) false
    { lb := Bound.fin 5, ub := Bound.fin 5, closed_upper_bound := true }
    (by decide) rfl

/-- C5: a fresh aggregator is not final; a first successful `finalize_result`
raises nothing and leaves it final; any second `finalize_result` or
`finalize_result_as_error` raises the already-finalized error. -/
theorem finalize_result_once (s s2 : AnalysisScenario) (p : ParameterSpace)
    (q : Option ParameterSpace) :
    freshResults.is_final = false ∧
    (freshResults.finalize_result s (some p)).2 = none ∧
    (freshResults.finalize_result s (some p)).1.is_final = true ∧
    ((freshResults.finalize_result s (some p)).1.finalize_result s2 q).2 =
      some FinalizeErr.alreadyFinalized ∧
    ((freshResults.finalize_result s (some p)).1.finalize_result_as_error).2 =
      some FinalizeErr.alreadyFinalized := by
  simp [freshResults, FunmanResults.is_final, FunmanResults.finalize_result,
        FunmanResults.finalize_result_as_error,
        FunmanResults.update_parameter_space]

/-- C10: `finalize_result` on a non-finalized aggregator with a result that
carries no parameter space raises the missing-parameter-space error *after*
setting the finalized flag: the aggregator reports final, `done` and `error`
stay false, and every later finalize attempt raises already-finalized. -/
theorem finalize_missing_ps (r : FunmanResults) (s : AnalysisScenario)
    (hf : r.finalized = false) (hd : r.done = false) (he : r.error = false) :
    (r.finalize_result s none).2 = some FinalizeErr.noParameterSpace ∧
    (r.finalize_result s none).1.is_final = true ∧
    (r.finalize_result s none).1.done = false ∧
    (r.finalize_result s none).1.error = false ∧
    ∀ (s' : AnalysisScenario) (q : Option ParameterSpace),
      ((r.finalize_result s none).1.finalize_result s' q).2 =
        some FinalizeErr.alreadyFinalized := by
  simp [FunmanResults.finalize_result, FunmanResults.is_final, hf, hd, he]

/-- C10 (witness): `finalize_missing_ps` on a fresh aggregator. -/
theorem finalize_missing_ps_witness :
    (freshResults.finalize_result ⟨1, 1⟩ none).2 =
      some FinalizeErr.noParameterSpace ∧
    (freshResults.finalize_result ⟨1, 1⟩ none).1.is_final = true ∧
    (freshResults.finalize_result ⟨1, 1⟩ none).1.done = false ∧
    (freshResults.finalize_result ⟨1, 1⟩ none).1.error = false ∧
    ((freshResults.finalize_result ⟨1, 1⟩ none).1.finalize_result ⟨2, 2⟩
        (some ⟨1⟩)).2 = some FinalizeErr.alreadyFinalized := by
  have h := finalize_missing_ps freshResults ⟨1, 1⟩ rfl rfl rfl
  exact ⟨h.1, h.2.1, h.2.2.1, h.2.2.2.1, h.2.2.2.2 ⟨2, 2⟩ (some ⟨1⟩)⟩

/-- C7: `to_scenario` dispatches to a consistency scenario when the request
has `parameters=None` or every parameter is labeled `LABEL_ANY`, to a
parameter-synthesis scenario when some parameter has another label and the
model is not an ensemble, and raises the unsupported-mode error on an
ensemble model with such a request. -/
theorem to_scenario_dispatch (w : FunmanWorkUnit) :
    (w.request.parameters = none → isConsistency w.to_scenario = true) ∧
    (∀ ps, w.request.parameters = some ps →
      ps.all (fun p => p.label == LABEL_ANY) = true →
      isConsistency w.to_scenario = true) ∧
    (∀ ps, w.request.parameters = some ps →
      ps.all (fun p => p.label == LABEL_ANY) = false →
      w.model ≠ ModelKind.ensemble →
      isParameterSynthesis w.to_scenario = true) ∧
    (∀ ps, w.request.parameters = some ps →
      ps.all (fun p => p.label == LABEL_ANY) = false →
      w.model = ModelKind.ensemble →
      w.to_scenario =
        Except.error "TODO handle EnsembleModel for ParameterSynthesisScenario") := by
  refine ⟨fun h => ?_, fun ps h hall => ?_, fun ps h hall hm => ?_,
          fun ps h hall hm => ?_⟩
  · simp [FunmanWorkUnit.to_scenario, h, isConsistency]
  · simp [FunmanWorkUnit.to_scenario, h, hall, isConsistency]
  · simp [FunmanWorkUnit.to_scenario, h, hall, hm, isParameterSynthesis]
  · simp [FunmanWorkUnit.to_scenario, h, hall, hm]

/-- C7 (witness): the four dispatch outcomes at concrete work units — no
parameters, an all-`ANY` parameter, a synthesized parameter on a petrinet,
and a synthesized parameter on an ensemble. -/
theorem to_scenario_dispatch_witness :
    isConsistency
      (FunmanWorkUnit.to_scenario
        { model := ModelKind.petrinet,
          request := { query := none, constraints := none, parameters := none,
                       structure_parameters := none } }) = true ∧
    isConsistency
      (FunmanWorkUnit.to_scenario
        { model := ModelKind.petrinet,
          request := { query := none, constraints := none,
                       parameters := some [{ name := "beta", lb := Bound.fin 0,
                                             ub := Bound.fin 1, label := LABEL_ANY }],
                       structure_parameters := none } }) = true ∧
    isParameterSynthesis
      (FunmanWorkUnit.to_scenario
        { model := ModelKind.petrinet,
          request := { query := none, constraints := none,
                       parameters := some [{ name := "beta", lb := Bound.fin 0,
                                             ub := Bound.fin 1, label := "all" }],
                       structure_parameters := none } }) = true ∧
    FunmanWorkUnit.to_scenario
        { model := ModelKind.ensemble,
          request := { query := none, constraints := none,
                       parameters := some [{ name := "beta", lb := Bound.fin 0,
                                             ub := Bound.fin 1, label := "all" }],
                       structure_parameters := none } } =
      Except.error "TODO handle EnsembleModel for ParameterSynthesisScenario" := by
  refine ⟨(to_scenario_dispatch _).1 rfl,
          (to_scenario_dispatch _).2.1 _ rfl (by decide),
          (to_scenario_dispatch _).2.2.1 _ rfl (by decide) (by decide),
          (to_scenario_dispatch _).2.2.2 _ rfl (by decide) rfl⟩

/-- C9: on the point `{"x_0": 1.0, "x_1": 2.0, "y_bad": 9.0}` with requested
variables `["x"]`, `symbol_timeseries` yields exactly
`{"index": [0, 1], "x": [1.0, 2.0]}`; `"y_bad"` (no digit timepoint suffix
for the requested variable) is excluded. -/
theorem symbol_timeseries_example :
    symbol_timeseries
        [("x_0", PyVal.num 1), ("x_1", PyVal.num 2), ("y_bad", PyVal.num 9)]
        ["x"] =
      some [("index", TimeseriesCol.idx [0, 1]),
            ("x", TimeseriesCol.vals [some 1, some 2])] ∧
    alookup [("index", TimeseriesCol.idx [0, 1]),
             ("x", TimeseriesCol.vals [some 1, some 2])] "y_bad" = none := by
  constructor
  · rfl
  · rfl

/-- C6 (code bug): `symbol_values` catches a per-timepoint `OverflowError`
but its handler `l.warning(e)` references the unbound name `l`
(`query.py` defines no module-level logger), so the handler raises
`NameError` and the whole extraction aborts instead of leaving the slot
empty and continuing; without any overflow the extraction completes
normally. -/
theorem symbol_values_name_error :
    symbol_values [("x_0", PyVal.num 1), ("x_1", PyVal.overflowing)] ["x"] =
      none ∧
    symbol_values [("x_0", PyVal.num 1), ("x_1", PyVal.num 2)] ["x"] =
      some [("x", [("0", 1), ("1", 2)])] := by
  constructor
  · rfl
  · rfl

/-- Auxiliary: unpacking `contains s o = some true` into its two conditional
components (the source computes `lhs and rhs` from two conditional
expressions). -/
theorem contains_parts (s o : Interval) (h : s.contains o = some true) :
    (s.lb = Bound.neg_inf ∨ o.lb = Bound.neg_inf →
      (s.lb = Bound.neg_inf ∨ o.lb ≠ Bound.neg_inf)) ∧
    (¬(s.lb = Bound.neg_inf ∨ o.lb = Bound.neg_inf) →
      pyLe s.lb o.lb = some true) ∧
    (s.ub = Bound.pos_inf ∨ o.ub = Bound.pos_inf →
      (o.ub ≠ Bound.pos_inf ∨ s.ub = Bound.pos_inf)) ∧
    (¬(s.ub = Bound.pos_inf ∨ o.ub = Bound.pos_inf) →
      pyLe o.ub s.ub = some true) := by
  simp only [Interval.contains] at h
  by_cases h1 : s.lb = Bound.neg_inf ∨ o.lb = Bound.neg_inf
  · by_cases h2 : s.ub = Bound.pos_inf ∨ o.ub = Bound.pos_inf
    · rw [if_pos h1, if_pos h2] at h
      simp only [Option.some.injEq, Bool.and_eq_true, decide_eq_true_eq] at h
      exact ⟨fun _ => h.1, fun hn => absurd h1 hn, fun _ => h.2,
             fun hn => absurd h2 hn⟩
    · cases hp : pyLe o.ub s.ub with
      | none => rw [if_pos h1, if_neg h2, hp] at h; cases h
      | some r =>
        rw [if_pos h1, if_neg h2, hp] at h
        simp only [Option.some.injEq, Bool.and_eq_true, decide_eq_true_eq] at h
        exact ⟨fun _ => h.1, fun hn => absurd h1 hn,
               fun h2' => absurd h2' h2, fun _ => by rw [h.2]⟩
  · by_cases h2 : s.ub = Bound.pos_inf ∨ o.ub = Bound.pos_inf
    · cases hq : pyLe s.lb o.lb with
      | none => rw [if_neg h1, if_pos h2, hq] at h; cases h
      | some l =>
        rw [if_neg h1, if_pos h2, hq] at h
        simp only [Option.some.injEq, Bool.and_eq_true, decide_eq_true_eq] at h
        exact ⟨fun h1' => absurd h1' h1, fun _ => by rw [h.1],
               fun _ => h.2, fun hn => absurd h2 hn⟩
    · cases hq : pyLe s.lb o.lb with
      | none => rw [if_neg h1, if_neg h2, hq] at h; cases h
      | some l =>
        cases hp : pyLe o.ub s.ub with
        | none => rw [if_neg h1, if_neg h2, hq, hp] at h; cases h
        | some r =>
          rw [if_neg h1, if_neg h2, hq, hp] at h
          simp only [Option.some.injEq, Bool.and_eq_true] at h
          exact ⟨fun h1' => absurd h1' h1, fun _ => by rw [h.1],
                 fun h2' => absurd h2' h2, fun _ => by rw [h.2]⟩

/-- C3 (counterexample): `[0, 10]` contains `[2, 3]`, yet the source's
`intersection` returns the two-float list `[2.0, 10.0]` — it pairs the
second interval's lower bound with the *first* interval's upper bound — which
is not `b` (nor even the true intersection). -/
theorem contains_intersection_counterexample :
    ({ lb := Bound.fin 0, ub := Bound.fin 10, closed_upper_bound := false } : Interval).contains
        ({ lb := Bound.fin 2, ub := Bound.fin 3, closed_upper_bound := false } : Interval) = some true ∧
    ({ lb := Bound.fin 0, ub := Bound.fin 10, closed_upper_bound := false } : Interval).intersection
        ({ lb := Bound.fin 2, ub := Bound.fin 3, closed_upper_bound := false } : Interval) =
      IntersectionResult.pair (Bound.fin 2) (Bound.fin 10) ∧
    matchesB
      (({ lb := Bound.fin 0, ub := Bound.fin 10, closed_upper_bound := false } : Interval).intersection
        ({ lb := Bound.fin 2, ub := Bound.fin 3, closed_upper_bound := false } : Interval))
      ({ lb := Bound.fin 2, ub := Bound.fin 3, closed_upper_bound := false } : Interval) = false := by
  refine ⟨by decide, by decide, by decide⟩

/-- C3 (amended): for well-ordered `b` (`lb ≤ ub`), if `a.contains(b)` holds
*and* `a` shares its lower or its upper bound with `b`, with `b`
non-degenerate unless the intervals are equal, then `a.intersection(b)`
equals `b` up to float round-trip.  (Strict interior containment, or a
degenerate `b` at a shared endpoint, falsifies the original claim.) -/
theorem contains_intersection_amended (a b : Interval)
    (hwb : lte b.lb b.ub = true)
    (hc : a.contains b = some true)
    (hshare : a.lb = b.lb ∨ a.ub = b.ub)
    (hnd : b.lb ≠ b.ub ∨ (a.lb = b.lb ∧ a.ub = b.ub)) :
    matchesB (a.intersection b) b = true := by
  by_cases heq : intervalEq a b = true
  · simp [Interval.intersection, heq, matchesB]
  · obtain ⟨L1, L2, R1, R2⟩ := contains_parts a b hc
    have hbne : b.lb ≠ b.ub := by
      rcases hnd with h' | h'
      · exact h'
      · exact absurd (by simp [intervalEq, h'.1, h'.2]) heq
    have hblt : lt b.lb b.ub = true := by
      rcases (by simpa only [lte, Bool.or_eq_true, beq_iff_eq] using hwb :
          lt b.lb b.ub = true ∨ b.lb = b.ub) with h' | h'
      · exact h'
      · exact absurd h' hbne
    rcases hshare with hsl | hsu
    · have hau : a.ub ≠ b.ub := fun hu => heq (by simp [intervalEq, hsl, hu])
      have hlt_false : lt a.ub b.ub = false := by
        by_cases hp2 : a.ub = Bound.pos_inf ∨ b.ub = Bound.pos_inf
        · rcases hp2 with h' | h'
          · rw [h']
            cases b.ub <;> rfl
          · rcases R1 (Or.inr h') with h'' | h''
            · exact absurd h' h''
            · exact absurd (h''.trans h'.symm) hau
        · have hr := R2 hp2
          push_neg at hp2
          cases hub : b.ub with
          | pos_inf => exact absurd hub hp2.2
          | neg_inf =>
            cases hua : a.ub with
            | neg_inf => exact absurd (hua.trans hub.symm) hau
            | pos_inf => exact absurd hua hp2.1
            | fin q => rw [hub, hua] at hr; simp [pyLe] at hr
          | fin ubq =>
            cases hua : a.ub with
            | neg_inf => rw [hub, hua] at hr; simp [pyLe] at hr
            | pos_inf => exact absurd hua hp2.1
            | fin uaq =>
              rw [hub, hua] at hr
              simp only [pyLe, Option.some.injEq, decide_eq_true_eq] at hr
              simp only [lt, decide_eq_false_iff_not]
              exact not_lt.mpr hr
      have hbeq : (a.lb == b.lb) = true := by simp [hsl]
      have hgt : gt b.ub b.lb = true := by
        unfold gt
        exact hblt
      simp [Interval.intersection, heq, hbeq, hlt_false, hgt, matchesB, hsl]
    · have hal : a.lb ≠ b.lb := fun hl => heq (by simp [intervalEq, hl, hsu])
      have hbeq : (a.lb == b.lb) = false := by simp [hal]
      have hlt_true : lt a.lb b.lb = true := by
        by_cases hp1 : a.lb = Bound.neg_inf ∨ b.lb = Bound.neg_inf
        · rcases hp1 with h' | h'
          · rw [h']
            cases hbl : b.lb with
            | neg_inf => exact absurd (h'.trans hbl.symm) hal
            | pos_inf => rfl
            | fin q => rfl
          · rcases L1 (Or.inr h') with h'' | h''
            · exact absurd (h''.trans h'.symm) hal
            · exact absurd h' h''
        · have hq := L2 hp1
          push_neg at hp1
          cases hla : a.lb with
          | neg_inf => exact absurd hla hp1.1
          | pos_inf =>
            cases hbl : b.lb with
            | neg_inf => exact absurd hbl hp1.2
            | pos_inf => exact absurd (hla.trans hbl.symm) hal
            | fin q => rw [hla, hbl] at hq; simp [pyLe] at hq
          | fin laq =>
            cases hbl : b.lb with
            | neg_inf => exact absurd hbl hp1.2
            | pos_inf => rw [hla, hbl] at hq; simp [pyLe] at hq
            | fin lbq =>
              rw [hla, hbl] at hq
              simp only [pyLe, Option.some.injEq, decide_eq_true_eq] at hq
              simp only [lt, decide_eq_true_eq]
              have hne : laq ≠ lbq := fun he => hal (by rw [hla, hbl, he])
              exact lt_of_le_of_ne hq hne
      have hgt : gt b.ub b.lb = true := by
        unfold gt
        exact hblt
      simp [Interval.intersection, heq, hbeq, hlt_true, hgt, matchesB, hsu]

/-- C3 (witness): `contains_intersection_amended` at `a = [2, 10]`,
`b = [2, 3]` (shared lower bound): the intersection is `[2.0, 3.0]`, which
matches `b`. -/
theorem contains_intersection_amended_witness :
    matchesB
      (({ lb := Bound.fin 2, ub := Bound.fin 10, closed_upper_bound := false } : Interval).intersection
        ({ lb := Bound.fin 2, ub := Bound.fin 3, closed_upper_bound := false } : Interval))
      ({ lb := Bound.fin 2, ub := Bound.fin 3, closed_upper_bound := false } : Interval) = true :=
  contains_intersection_amended _ _ (by decide) (by decide)
    (Or.inl (by decide)) (Or.inl (by decide))

end Funman
